import Mathlib

/-!
Shallow embedding of `src/new_blog_post.py`, a four-stage news pipeline
(fetch, scrape, summarize and rank, publish).  External effects (HTTP
requests, language-model calls, git commands) are modelled as explicit
outcome values or oracle functions passed to each stage; the pure
transformation each Python function performs on those values is embedded
directly.
-/

namespace NewBlogPost

/-- An article record as returned by the news API: the fields the script
reads are `title` and `url` (`fetch_top_articles`, `process_article`). -/
structure ArticleRef where
  title : String
  url : String
  deriving DecidableEq, Repr

/-- The dictionary built by `process_article` (lines 104-109). -/
structure SummarizedArticle where
  original_title : String
  new_title : String
  url : String
  summary : String
  deriving DecidableEq, Repr

/-! ## Python string primitives

The script uses `str.strip()`, `str.split('\n')` and substring tests.
They are embedded as structurally recursive functions on the character
list of a `String`, following Python's semantics. -/

/-- The ASCII whitespace characters `str.strip()` removes:
space, tab, newline, carriage return, vertical tab, form feed. -/
def isPySpace (c : Char) : Bool :=
  c == ' ' || c == '\t' || c == '\n' || c == '\x0d' || c == '\x0b' || c == '\x0c'

/-- Python `str.strip()`: drop leading and trailing whitespace. -/
def pyStrip (s : String) : String :=
  (((s.toList.dropWhile isPySpace).reverse.dropWhile isPySpace).reverse).asString

/-- Split a character list at every occurrence of `c`, keeping empty
pieces, as Python's `str.split(sep)` does. -/
def splitOnChar (c : Char) : List Char → List (List Char)
  | [] => [[]]
  | x :: xs =>
      match splitOnChar c xs with
      | [] => if x == c then [[], []] else [[x]]
      | h :: t => if x == c then [] :: h :: t else (x :: h) :: t

/-- Python `str.split('\n')`. -/
def pySplitLines (s : String) : List String :=
  (splitOnChar '\n' s.toList).map List.asString

/-- Occurrence of the character list `n` contiguously inside a second
character list. -/
def pySubstrAux (n : List Char) : List Char → Bool
  | [] => n.isEmpty
  | x :: xs => n.isPrefixOf (x :: xs) || pySubstrAux n xs

/-- Python `needle in hay` on strings: `needle` occurs contiguously in
`hay` (equality included). -/
def pySubstr (needle hay : String) : Bool :=
  pySubstrAux needle.toList hay.toList

/-! ## Fetcher (`fetch_top_articles`, lines 23-44) -/

/-- The query parameters of the news-search request (lines 28-36).
The Python dict keys `from` and `to` are Lean keywords, rendered here as
`date_from` and `date_to`. -/
structure NewsApiParams where
  q : String
  date_from : String
  date_to : String
  sortBy : String
  pageSize : Nat
  apiKey : String
  language : String
  deriving DecidableEq, Repr

/-- The `params` dict built by `fetch_top_articles` (lines 28-36).
`yesterday` stands for `(datetime.now(timezone.utc) - timedelta(days=1)).strftime('%Y-%m-%d')`
(line 27): the UTC date of the day before the run, formatted `YYYY-MM-DD`. -/
def fetch_top_articles_params (yesterday apiKey : String) : NewsApiParams :=
  { q := "cybersecurity"
    date_from := yesterday
    date_to := yesterday
    sortBy := "popularity"
    pageSize := 20
    apiKey := apiKey
    language := "en" }

/-- Outcome of the `requests.get` call in `fetch_top_articles`:
either the transport layer raised (`requestError`), or a response arrived
with a status code and a parsed JSON body whose `articles` field is
`body` (`none` when the key is absent, `response.json().get('articles', [])`). -/
inductive FetchOutcome where
  | requestError
  | response (status : Nat) (body : Option (List ArticleRef))
  deriving DecidableEq, Repr

/-- Python `response.raise_for_status()` raises `requests.exceptions.HTTPError`
exactly for 4xx and 5xx status codes (400-599); any other status, also
one of 600 or above, passes through silently. -/
def raise_for_status_raises (status : Nat) : Bool :=
  400 ≤ status && status < 600

/-- Function `fetch_top_articles` (lines 23-44): returns the parsed `articles`
list, or `[]` when the key is missing, or `[]` when `requests.get` or
`raise_for_status` raised a `RequestException` (caught at line 42). -/
def fetch_top_articles (o : FetchOutcome) : List ArticleRef :=
  match o with
  | .requestError => []
  | .response status body =>
      if raise_for_status_raises status then [] else body.getD []

/-! ## Scraper (`scrape_article_content`, lines 46-58) -/

/-- Outcome of the `requests.get` call in `scrape_article_content`:
transport failure, or a response with a status code and the list of text
nodes of the `<p>` elements of its HTML body.  Parsing with
`BeautifulSoup(..., 'html.parser')` is lenient and total, so no parse
outcome raises. -/
inductive ScrapeOutcome where
  | requestError
  | response (status : Nat) (paragraphs : List String)
  deriving DecidableEq, Repr

/-- Function `scrape_article_content` (lines 46-58): joins the `<p>` texts with
single spaces (`' '.join(...)`, line 53); returns `""` when the request
or `raise_for_status` raised (caught at line 56). -/
def scrape_article_content (o : ScrapeOutcome) : String :=
  match o with
  | .requestError => ""
  | .response status paragraphs =>
      if raise_for_status_raises status then ""
      else String.intercalate " " paragraphs

/-! ## Summarizer and title generator (lines 60-96) -/

/-- Outcome of one chat-completion call: any exception
(`except Exception`, caught broadly), or a successful response whose
message content is `content`. -/
inductive ModelOutcome where
  | failure
  | success (content : String)
  deriving DecidableEq, Repr

/-- Function `summarize_article` (lines 60-77): strips the message content on
success; returns the fixed placeholder on any exception (line 77). -/
def summarize_article (o : ModelOutcome) : String :=
  match o with
  | .failure => "Summary unavailable due to an error."
  | .success content => pyStrip content

/-- Function `generate_new_title` (lines 79-96): same shape as the summarizer,
with its own placeholder (line 96). -/
def generate_new_title (o : ModelOutcome) : String :=
  match o with
  | .failure => "Title unavailable due to an error."
  | .success content => pyStrip content

/-! ## Per-article processing (`process_article`, lines 98-110)

The external calls are passed as oracle functions: `scrape` maps a URL to
the scraped text (the value `scrape_article_content` returned for it),
`summarize` maps the scraped text to the summary string, and `titleGen`
maps the summary to the generated title. -/

/-- Function `process_article` (lines 98-110): scrapes the article's URL; when the
text is non-empty (`if full_text:`) it summarizes, generates a new
title and builds the record of lines 104-109; otherwise returns `None`. -/
def process_article (scrape summarize titleGen : String → String)
    (a : ArticleRef) : Option SummarizedArticle :=
  let full_text := scrape a.url
  if full_text ≠ "" then
    let summary := summarize full_text
    let new_title := titleGen summary
    some { original_title := a.title
           new_title := new_title
           url := a.url
           summary := summary }
  else
    none

/-! ## Relevance ranker (`filter_relevant_articles`, lines 112-139) -/

/-- Lines 130-131: the model's reply is stripped, split on newlines, each
line stripped, and blank lines dropped
(`[title.strip() for title in relevant_titles if title.strip()]`). -/
def parse_relevant_titles (content : String) : List String :=
  ((pySplitLines (pyStrip content)).map pyStrip).filter (fun t => t ≠ "")

/-- Lines 114-117: the thread pool maps `process_article` over the
articles preserving order, and records that came back `None` are
dropped (`[article for article in processed_articles if article is not None]`). -/
def summarized_articles (scrape summarize titleGen : String → String)
    (articles : List ArticleRef) : List SummarizedArticle :=
  (articles.map (process_article scrape summarize titleGen)).filterMap id

/-- The `try` body of `filter_relevant_articles` (lines 119-139), given
the summarized list and the outcome of the chat-completion call: on any
exception returns `[]` (line 139); otherwise keeps the summarized
articles whose `new_title` is a member of the parsed title lines
(`if article['new_title'] in relevant_titles`, line 133). -/
def filter_relevant_articles_core (summarized : List SummarizedArticle)
    (resp : ModelOutcome) : List SummarizedArticle :=
  match resp with
  | .failure => []
  | .success content =>
      let relevant_titles := parse_relevant_titles content
      summarized.filter (fun a => a.new_title ∈ relevant_titles)

/-- Function `filter_relevant_articles` (lines 112-139) end to end.  Here `respond` is
the relevance model call, an oracle from the summarized list (the data
the combined prompt of line 120 is built from) to the call's outcome. -/
def filter_relevant_articles (scrape summarize titleGen : String → String)
    (respond : List SummarizedArticle → ModelOutcome)
    (articles : List ArticleRef) : List SummarizedArticle :=
  let summarized := summarized_articles scrape summarize titleGen articles
  filter_relevant_articles_core summarized (respond summarized)

/-! ## Publisher (`create_blog_post`, lines 141-157)

The file is modelled as the ordered list of strings passed to `f.write`;
its content is their concatenation.  `today` stands for
`datetime.now(timezone.utc).strftime('%Y-%m-%d')` (line 143), the run's
UTC date. -/

/-- The exact strings written by `create_blog_post` (lines 147-154), in
order: four front-matter writes, then three writes per article. -/
def create_blog_post_writes (today : String)
    (summaries : List SummarizedArticle) : List String :=
  ["---\n",
   "title: Cybersecurity News for " ++ today ++ "\n",
   "date: " ++ today ++ "\n",
   "---\n\n"]
  ++ summaries.flatMap (fun a =>
      ["## " ++ a.new_title ++ "\n",
       "[Read more](" ++ a.url ++ ")\n\n",
       a.summary ++ "\n\n"])

/-- The full content of the markdown file written by `create_blog_post`. -/
def create_blog_post_content (today : String)
    (summaries : List SummarizedArticle) : String :=
  String.join (create_blog_post_writes today summaries)

/-- True when a character list begins with the three characters of a
markdown `##` section header. -/
def headerChars : List Char → Bool
  | c1 :: c2 :: c3 :: _ => c1 == '#' && c2 == '#' && c3 == ' '
  | _ => false

/-- A write starts a `##` section of the post, i.e. begins with the
characters of the header the loop at line 152 emits. -/
def isSectionHeader (s : String) : Bool := headerChars s.toList

/-! ## Git push (`push_to_github`, lines 159-174) -/

/-- The git commands `push_to_github` can run (lines 164-169). -/
inductive GitCmd where
  | add
  | status
  | commit
  | push
  deriving DecidableEq, Repr

/-- Function `push_to_github` (lines 159-174): always stages and asks for status;
commits and pushes only when `git status --porcelain` printed something
non-blank (`if result.stdout.strip():`, line 167).  `porcelain` is that
command's stdout. -/
def push_to_github (porcelain : String) : List GitCmd :=
  [GitCmd.add, GitCmd.status]
  ++ (if pyStrip porcelain ≠ "" then [GitCmd.commit, GitCmd.push] else [])

/-! ## Helper lemmas -/

theorem string_toList_append (s t : String) : (s ++ t).toList = s.toList ++ t.toList :=
  String.data_append s t

theorem isSectionHeader_header_chunk (t : String) :
    isSectionHeader ("## " ++ t ++ "\n") = true := by
  show headerChars (("## " ++ t) ++ "\n").toList = true
  rw [string_toList_append, string_toList_append,
    show "## ".toList = '#' :: '#' :: ' ' :: [] from rfl]
  rfl

theorem isSectionHeader_title_chunk (today : String) :
    isSectionHeader ("title: Cybersecurity News for " ++ today ++ "\n") = false := by
  show headerChars (("title: Cybersecurity News for " ++ today) ++ "\n").toList = false
  rw [string_toList_append, string_toList_append,
    show "title: Cybersecurity News for ".toList
      = 't' :: 'i' :: 't' :: "le: Cybersecurity News for ".toList from rfl]
  rfl

theorem isSectionHeader_date_chunk (today : String) :
    isSectionHeader ("date: " ++ today ++ "\n") = false := by
  show headerChars (("date: " ++ today) ++ "\n").toList = false
  rw [string_toList_append, string_toList_append,
    show "date: ".toList = 'd' :: 'a' :: 't' :: "e: ".toList from rfl]
  rfl

theorem isSectionHeader_link_chunk (u : String) :
    isSectionHeader ("[Read more](" ++ u ++ ")\n\n") = false := by
  show headerChars (("[Read more](" ++ u) ++ ")\n\n").toList = false
  rw [string_toList_append, string_toList_append,
    show "[Read more](".toList = '[' :: 'R' :: 'e' :: "ad more](".toList from rfl]
  rfl

theorem isSectionHeader_summary_chunk (s : String) (h : isSectionHeader s = false) :
    isSectionHeader (s ++ "\n\n") = false := by
  show headerChars (s ++ "\n\n").toList = false
  rw [string_toList_append, show "\n\n".toList = ['\n', '\n'] from rfl]
  rw [show isSectionHeader s = headerChars s.toList from rfl] at h
  cases hl : s.toList with
  | nil => rfl
  | cons c1 l1 =>
    rw [hl] at h
    cases l1 with
    | nil =>
      simp [headerChars, show ('\n' == '#') = false from rfl]
    | cons c2 l2 =>
      cases l2 with
      | nil =>
        simp [headerChars, show ('\n' == ' ') = false from rfl]
      | cons c3 rest =>
        simp only [List.cons_append, headerChars] at h ⊢
        exact h

theorem frontMatter_filter (today : String) :
    (["---\n",
      "title: Cybersecurity News for " ++ today ++ "\n",
      "date: " ++ today ++ "\n",
      "---\n\n"].filter isSectionHeader) = [] := by
  simp [List.filter_cons, isSectionHeader_title_chunk, isSectionHeader_date_chunk,
    show isSectionHeader "---\n" = false from rfl,
    show isSectionHeader "---\n\n" = false from rfl]

theorem articleChunks_filter (summaries : List SummarizedArticle)
    (h : ∀ a ∈ summaries, isSectionHeader a.summary = false) :
    ((summaries.flatMap (fun a =>
        ["## " ++ a.new_title ++ "\n",
         "[Read more](" ++ a.url ++ ")\n\n",
         a.summary ++ "\n\n"])).filter isSectionHeader)
      = summaries.map (fun a => "## " ++ a.new_title ++ "\n") := by
  induction summaries with
  | nil => rfl
  | cons a l ih =>
    have ha := h a (List.mem_cons_self a l)
    have hl : ∀ b ∈ l, isSectionHeader b.summary = false :=
      fun b hb => h b (List.mem_cons_of_mem a hb)
    simp only [List.flatMap_cons, List.filter_append, List.filter_cons, List.filter_nil,
      List.map_cons, isSectionHeader_header_chunk, isSectionHeader_link_chunk,
      isSectionHeader_summary_chunk a.summary ha, ih hl]
    simp

theorem filter_relevant_articles_core_sublist (summarized : List SummarizedArticle)
    (resp : ModelOutcome) :
    List.Sublist (filter_relevant_articles_core summarized resp) summarized := by
  cases resp with
  | failure => exact List.nil_sublist _
  | success content => exact List.filter_sublist _

theorem mem_filter_relevant_core (summarized : List SummarizedArticle)
    (resp : ModelOutcome) (r : SummarizedArticle)
    (hr : r ∈ filter_relevant_articles_core summarized resp) : r ∈ summarized :=
  (filter_relevant_articles_core_sublist summarized resp).subset hr

theorem mem_summarized_articles_scrape (scrape summarize titleGen : String → String)
    (articles : List ArticleRef) (r : SummarizedArticle)
    (hr : r ∈ summarized_articles scrape summarize titleGen articles) :
    scrape r.url ≠ "" := by
  simp only [summarized_articles, List.mem_filterMap, List.mem_map, id] at hr
  obtain ⟨o, ⟨b, hb, hfb⟩, ho⟩ := hr
  subst hfb
  by_cases hc : scrape b.url = ""
  · simp [process_article, hc] at ho
  · simp only [process_article, if_pos, hc, ne_eq, not_false_eq_true, if_true, ite_true,
      Option.some.injEq, reduceIte] at ho
    rw [← ho]
    exact hc

/-! ## Claim theorems -/

/-- C1 counterexample: with nine summarized articles whose titles are
all listed in the model's response, `filter_relevant_articles` returns
nine articles — more than the cap of 8 the claim states, because the
code never truncates the matched list. -/
theorem filter_relevant_articles_cap_counterexample :
    8 < (filter_relevant_articles (fun u => u) (fun t => t) (fun s => s)
      (fun _ => ModelOutcome.success "T1\nT2\nT3\nT4\nT5\nT6\nT7\nT8\nT9")
      [⟨"a", "T1"⟩, ⟨"a", "T2"⟩, ⟨"a", "T3"⟩, ⟨"a", "T4"⟩, ⟨"a", "T5"⟩,
       ⟨"a", "T6"⟩, ⟨"a", "T7"⟩, ⟨"a", "T8"⟩, ⟨"a", "T9"⟩]).length := by
  decide

/-- C1 (amended): the relevance selection returns a sublist of the
summarized articles, so it never returns more articles than were
summarized, nor more than were fetched; the count of 8 appears only in
the model prompt and is not enforced by the code. -/
theorem filter_relevant_articles_length_le
    (scrape summarize titleGen : String → String)
    (respond : List SummarizedArticle → ModelOutcome)
    (articles : List ArticleRef) :
    (filter_relevant_articles scrape summarize titleGen respond articles).length
      ≤ (summarized_articles scrape summarize titleGen articles).length ∧
    (filter_relevant_articles scrape summarize titleGen respond articles).length
      ≤ articles.length := by
  have h1 : (filter_relevant_articles scrape summarize titleGen respond articles).length
      ≤ (summarized_articles scrape summarize titleGen articles).length :=
    (filter_relevant_articles_core_sublist _ _).length_le
  have h2 : (summarized_articles scrape summarize titleGen articles).length
      ≤ articles.length := by
    calc (summarized_articles scrape summarize titleGen articles).length
        ≤ (articles.map (process_article scrape summarize titleGen)).length :=
          List.length_filterMap_le _ _
      _ = articles.length := List.length_map _ _
  exact ⟨h1, le_trans h1 h2⟩

/-- C2 counterexample: a response with the non-2xx status 304 is not an
error for `raise_for_status`, so `fetch_top_articles` returns its parsed
articles rather than the empty list the claim promises for every
non-2xx status. -/
theorem fetch_top_articles_non2xx_counterexample :
    (304 < 200 ∨ 299 < 304) ∧
    fetch_top_articles (FetchOutcome.response 304 (some [⟨"t", "u"⟩])) = [⟨"t", "u"⟩] := by
  decide

/-- C2 (amended): when the transport fails, or the response status is a
4xx/5xx (400-599, exactly the statuses `raise_for_status` raises for),
the exception is caught and `fetch_top_articles` returns the empty
list. -/
theorem fetch_top_articles_failure_empty :
    fetch_top_articles FetchOutcome.requestError = [] ∧
    ∀ (status : Nat) (body : Option (List ArticleRef)),
      400 ≤ status → status < 600 →
      fetch_top_articles (FetchOutcome.response status body) = [] := by
  refine ⟨rfl, fun status body h1 h2 => ?_⟩
  simp [fetch_top_articles, raise_for_status_raises, h1, h2]

/-- Witness for the amended C2 theorem at status 503. -/
theorem fetch_top_articles_failure_empty_witness :
    400 ≤ 503 ∧ 503 < 600 ∧
    fetch_top_articles (FetchOutcome.response 503 (some [⟨"t", "u"⟩])) = [] :=
  ⟨by decide, by decide,
   fetch_top_articles_failure_empty.2 503 (some [⟨"t", "u"⟩]) (by decide) (by decide)⟩

/-- C3: a model failure during summarization yields the fixed
placeholder string and no exception escapes; a successful response
yields the stripped message content. -/
theorem summarize_article_spec :
    summarize_article ModelOutcome.failure = "Summary unavailable due to an error." ∧
    ∀ content, summarize_article (ModelOutcome.success content) = pyStrip content :=
  ⟨rfl, fun _ => rfl⟩

/-- C4: scraping a page with zero paragraph elements yields `""`; with
paragraphs it yields their text nodes joined by single spaces; a
transport failure or an HTTP error status (4xx/5xx, the statuses
`raise_for_status` raises for) yields `""` (parsing, done by a lenient
parser, cannot fail). -/
theorem scrape_article_content_spec (status : Nat) (paragraphs : List String) :
    scrape_article_content ScrapeOutcome.requestError = "" ∧
    (400 ≤ status → status < 600 →
      scrape_article_content (ScrapeOutcome.response status paragraphs) = "") ∧
    (status < 400 ∨ 600 ≤ status →
      scrape_article_content (ScrapeOutcome.response status []) = "") ∧
    (status < 400 ∨ 600 ≤ status →
      scrape_article_content (ScrapeOutcome.response status paragraphs)
        = String.intercalate " " paragraphs) := by
  refine ⟨rfl, fun h1 h2 => ?_, fun h => ?_, fun h => ?_⟩
  · simp [scrape_article_content, raise_for_status_raises, h1, h2]
  · have h4 : raise_for_status_raises status = false := by
      simp only [raise_for_status_raises, Bool.and_eq_false_iff, decide_eq_false_iff_not]
      omega
    simp only [scrape_article_content, h4, Bool.false_eq_true, if_false]
    rfl
  · have h4 : raise_for_status_raises status = false := by
      simp only [raise_for_status_raises, Bool.and_eq_false_iff, decide_eq_false_iff_not]
      omega
    simp [scrape_article_content, h4]

/-- Witness for the C4 theorem at statuses 404 and 200. -/
theorem scrape_article_content_spec_witness :
    400 ≤ 404 ∧ 404 < 600 ∧
    scrape_article_content (ScrapeOutcome.response 404 ["x"]) = "" ∧
    (200 < 400 ∨ 600 ≤ 200) ∧
    scrape_article_content (ScrapeOutcome.response 200 []) = "" ∧
    scrape_article_content (ScrapeOutcome.response 200 ["a", "b"])
      = String.intercalate " " ["a", "b"] :=
  ⟨by decide, by decide,
   (scrape_article_content_spec 404 ["x"]).2.1 (by decide) (by decide),
   by decide,
   (scrape_article_content_spec 200 []).2.2.1 (by decide),
   (scrape_article_content_spec 200 ["a", "b"]).2.2.2 (by decide)⟩

/-- C5 counterexample: a single input article whose model-generated
summary itself begins with the characters `## ` makes the published file
carry two section-header writes, so the file does not contain exactly
one `##` section per input article on that input. -/
theorem create_blog_post_extra_section_counterexample :
    ((create_blog_post_writes "2026-10-12"
        [⟨"o", "T", "u", "## fake header\nbody"⟩]).filter isSectionHeader).length
      = 2 := by
  decide

/-- C5 (amended): provided no article summary itself begins with the
characters of a section header, the published file carries exactly one
`##` section write per input article, in input order, and contains the
front-matter `date` line for the run's UTC date (the `today` string of
line 143). -/
theorem create_blog_post_sections (today : String)
    (summaries : List SummarizedArticle)
    (h : ∀ a ∈ summaries, isSectionHeader a.summary = false) :
    ((create_blog_post_writes today summaries).filter isSectionHeader
      = summaries.map (fun a => "## " ++ a.new_title ++ "\n")) ∧
    ("date: " ++ today ++ "\n") ∈ create_blog_post_writes today summaries := by
  constructor
  · unfold create_blog_post_writes
    rw [List.filter_append, frontMatter_filter today, articleChunks_filter summaries h]
    exact List.nil_append _
  · unfold create_blog_post_writes
    refine List.mem_append_left _ ?_
    simp

/-- Witness for the C5 theorem on one concrete article. -/
theorem create_blog_post_sections_witness :
    (create_blog_post_writes "2026-10-12" [⟨"o", "T", "u", "s"⟩]).filter isSectionHeader
      = ["## T\n"] :=
  ((create_blog_post_sections "2026-10-12" [⟨"o", "T", "u", "s"⟩] (by decide)).1).trans
    (by decide)

/-- C6: with an empty article list the published file is exactly the
YAML front matter (title and date) and nothing else, and when
`git status --porcelain` prints nothing but whitespace the push step
runs neither `git commit` nor `git push`. -/
theorem empty_post_and_skip_push (today porcelain : String)
    (h : pyStrip porcelain = "") :
    create_blog_post_content today []
      = "---\n" ++ ("title: Cybersecurity News for " ++ today ++ "\n")
        ++ ("date: " ++ today ++ "\n") ++ "---\n\n" ∧
    push_to_github porcelain = [GitCmd.add, GitCmd.status] := by
  constructor
  · simp [create_blog_post_content, create_blog_post_writes, String.join,
      List.foldl_cons, List.foldl_nil, String.append_assoc, String.empty_append]
  · simp [push_to_github, h]

/-- Witness for the C6 theorem with a whitespace-only porcelain output. -/
theorem empty_post_and_skip_push_witness :
    pyStrip " \n " = "" ∧ push_to_github " \n " = [GitCmd.add, GitCmd.status] :=
  ⟨by decide, (empty_post_and_skip_push "2026-10-12" " \n " (by decide)).2⟩

/-- C7: the fetch request carries the fixed topic `cybersecurity`, a
date window whose `from` and `to` both equal the run's `yesterday` UTC
date string, sort-by-popularity, and page size 20. -/
theorem fetch_top_articles_params_spec (yesterday apiKey : String) :
    (fetch_top_articles_params yesterday apiKey).q = "cybersecurity" ∧
    (fetch_top_articles_params yesterday apiKey).date_from = yesterday ∧
    (fetch_top_articles_params yesterday apiKey).date_to = yesterday ∧
    (fetch_top_articles_params yesterday apiKey).date_from
      = (fetch_top_articles_params yesterday apiKey).date_to ∧
    (fetch_top_articles_params yesterday apiKey).sortBy = "popularity" ∧
    (fetch_top_articles_params yesterday apiKey).pageSize = 20 :=
  ⟨rfl, rfl, rfl, rfl, rfl, rfl⟩

/-- C8 counterexample: the stripped response line `1. A` contains the
title `A` as a proper substring, yet the article titled `A` is dropped —
line 133 tests list membership (string equality), not substring
matching, so the claim's substring clause fails. -/
theorem title_match_counterexample :
    pySubstr "A" "1. A" = true ∧
    parse_relevant_titles "1. A" = ["1. A"] ∧
    filter_relevant_articles_core [⟨"o", "A", "u", "s"⟩]
      (ModelOutcome.success "1. A") = [] := by
  decide

/-- C8 (amended): an article is kept exactly when its regenerated title
is equal to one of the non-empty stripped lines of the model's response;
on a model failure nothing is kept. -/
theorem filter_relevant_articles_core_mem_iff
    (summarized : List SummarizedArticle) (content : String)
    (a : SummarizedArticle) :
    (a ∈ filter_relevant_articles_core summarized (ModelOutcome.success content) ↔
      a ∈ summarized ∧ ∃ l ∈ parse_relevant_titles content, a.new_title = l) ∧
    filter_relevant_articles_core summarized ModelOutcome.failure = [] := by
  refine ⟨?_, rfl⟩
  constructor
  · intro hm
    have hf := List.mem_filter.mp hm
    refine ⟨hf.1, a.new_title, ?_, rfl⟩
    simpa using hf.2
  · rintro ⟨hs, l, hl, he⟩
    refine List.mem_filter.mpr ⟨hs, ?_⟩
    simp [he]
    exact hl

/-- C9: an article whose scrape comes back empty is mapped to `None` by
`process_article` — with a result independent of the summarizer and
title-generator oracles, so neither is consulted for it — and every
record in the final selection stems from an article with a non-empty
scrape, so the empty-scrape article is never summarized, re-titled or
published. -/
theorem process_article_empty_scrape
    (scrape summarize titleGen : String → String) (a : ArticleRef)
    (h : scrape a.url = "") :
    process_article scrape summarize titleGen a = none ∧
    (∀ summarize2 titleGen2 : String → String,
      process_article scrape summarize2 titleGen2 a = none) ∧
    (∀ (respond : List SummarizedArticle → ModelOutcome)
      (articles : List ArticleRef),
      ∀ r ∈ filter_relevant_articles scrape summarize titleGen respond articles,
        scrape r.url ≠ "") := by
  refine ⟨by simp [process_article, h], fun s2 g2 => by simp [process_article, h],
    fun respond articles r hr => ?_⟩
  exact mem_summarized_articles_scrape scrape summarize titleGen articles r
    (mem_filter_relevant_core _ _ r hr)

/-- Witness for the C9 theorem with a scraper that always returns `""`. -/
theorem process_article_empty_scrape_witness :
    ((fun _ : String => "") "u" = "") ∧
    process_article (fun _ => "") (fun s => s) (fun s => s) ⟨"t", "u"⟩ = none :=
  ⟨rfl,
   (process_article_empty_scrape (fun _ => "") (fun s => s) (fun s => s) ⟨"t", "u"⟩ rfl).1⟩

/-- C10: the selection is a sublist of the processed summarized list:
kept articles keep their relative input order, and every kept record is
literally one of the processed records, its `new_title`, `url` and
`summary` fields untouched. -/
theorem filter_relevant_articles_sublist
    (scrape summarize titleGen : String → String)
    (respond : List SummarizedArticle → ModelOutcome)
    (articles : List ArticleRef) :
    List.Sublist (filter_relevant_articles scrape summarize titleGen respond articles)
      (summarized_articles scrape summarize titleGen articles) ∧
    ∀ r ∈ filter_relevant_articles scrape summarize titleGen respond articles,
      r ∈ summarized_articles scrape summarize titleGen articles := by
  refine ⟨filter_relevant_articles_core_sublist _ _, fun r hr => ?_⟩
  exact (filter_relevant_articles_core_sublist _ _).subset hr

end NewBlogPost
